import Mathlib

/-!
Shallow embedding of the rs-chip8 interpreter core (crate `chip8`):
`memory.rs` (Memory, Stack, Registers), `opcode_processor.rs`
(OpCode decode and the instruction handlers), `gpu.rs` (Chip8Gpu sprite
drawing) and `chipset.rs` (the `tick` fetch/decode/execute cycle).

Machine integers are modelled as `Nat` with explicit `% 2^w` where the
Rust code can wrap (release-mode wrapping semantics for `u16`/`u8`
arithmetic); Rust panics (out-of-bounds array indexing, the explicit
`panic!` calls, stack underflow) are modelled as `Option`/`TickResult.panic`.
-/

namespace Chip8

set_option maxHeartbeats 1000000 in
/-- `MEMORY_SIZE` from `memory.rs`. -/
def MEMORY_SIZE : Nat := 0x1000

/-- `STACK_SIZE` from `memory.rs`. -/
def STACK_SIZE : Nat := 0xf

/-- `PROGRAM_COUNTER_BOUNDARY` from `chipset.rs`. -/
def PROGRAM_COUNTER_BOUNDARY : Nat := 0x200

/-- `INSTRUCTION_SIZE` from `chipset.rs`. -/
def INSTRUCTION_SIZE : Nat := 2

/-- The 4096-byte memory (`Memory` in `memory.rs`), as a total map from
addresses to byte values; the bounds check lives in `read`/`write`. -/
abbrev Memory := Nat → Nat

/-- `Memory::read`: panics (here `none`) when `address >= 4096`. -/
def Memory.read (m : Memory) (address : Nat) : Option Nat :=
  if address < MEMORY_SIZE then some (m address) else none

/-- `Memory::write`: panics (here `none`) when `address >= 4096`. -/
def Memory.write (m : Memory) (address data : Nat) : Option Memory :=
  if address < MEMORY_SIZE then
    some (fun a => if a = address then data else m a)
  else none

/-- The 16 general-purpose byte registers (`Registers` in `memory.rs`). -/
abbrev Registers := Nat → Nat

/-- `Registers::get_register_at`. -/
def Registers.get_register_at (r : Registers) (index : Nat) : Nat := r index

/-- `Registers::set_register_at`. -/
def Registers.set_register_at (r : Registers) (index data : Nat) : Registers :=
  fun i => if i = index then data else r i

/-- The return-address stack (`Stack` in `memory.rs`): a 15-entry array of
16-bit addresses plus a stack pointer. -/
structure Stack where
  memory : Nat → Nat
  stack_pointer : Nat

/-- `Stack::push`: writes at the current pointer then increments; the array
index panics (here `none`) when the pointer is not below `STACK_SIZE`. -/
def Stack.push (st : Stack) (address : Nat) : Option Stack :=
  if st.stack_pointer < STACK_SIZE then
    some { memory := fun i => if i = st.stack_pointer then address else st.memory i,
           stack_pointer := st.stack_pointer + 1 }
  else none

/-- `Stack::pop`: decrements the pointer then reads; underflow at pointer 0
and reads beyond the 15-entry array panic (here `none`). -/
def Stack.pop (st : Stack) : Option (Nat × Stack) :=
  if st.stack_pointer = 0 then none
  else if st.stack_pointer - 1 < STACK_SIZE then
    some (st.memory (st.stack_pointer - 1), { st with stack_pointer := st.stack_pointer - 1 })
  else none

/-- The decoded instruction word (`OpCode` in `opcode_processor.rs`). -/
structure OpCode where
  opcode : Nat
  nnn : Nat
  nn : Nat
  n : Nat
  x : Nat
  y : Nat

/-- `OpCode::from_data`: pure bit-mask/shift field extraction. -/
def OpCode.from_data (data : Nat) : OpCode :=
  { opcode := data
    nnn := data &&& 0x0fff
    nn := data &&& 0x00ff
    n := data &&& 0x000f
    x := (data &&& 0x0f00) >>> 8
    y := (data &&& 0x00f0) >>> 4 }

/-- `OpCode::get_parts`: (class nibble, x, y, n). -/
def OpCode.get_parts (o : OpCode) : Nat × Nat × Nat × Nat :=
  ((o.opcode &&& 0xf000) >>> 12, o.x, o.y, o.n)

/-- `OpCode::get_address`. -/
def OpCode.get_address (o : OpCode) : Nat := o.nnn

/-- `OpCode::get_short_address`. -/
def OpCode.get_short_address (o : OpCode) : Nat := o.nn

/-- `OpCode::get_n`. -/
def OpCode.get_n (o : OpCode) : Nat := o.n

/-- The four dispatch nibbles of a raw instruction word, as used by
`Chip8Chipset::tick`'s `match opcode.get_parts()`. -/
def partsOf (w : Nat) : Nat × Nat × Nat × Nat :=
  OpCode.get_parts (OpCode.from_data w)

/-- The keypad keys (`Key` in `keyboard.rs`): sixteen hex keys plus the
out-of-band escape key. -/
inductive Key where
  | key : Fin 16 → Key
  | keyESC : Key

/-- The `key as u8` cast: the discriminant value of the `Key` enum
(`Key0 = 0x0` … `KeyF = 0xf`, `KeyESC = 0xff`). -/
def Key.toByte : Key → Nat
  | .key v => v.val
  | .keyESC => 0xff

/-! ## Chip8OpCodesProcessor handlers (opcode_processor.rs) -/

/-! ## Chip8Gpu (gpu.rs) -/

/-- `DISPLAY_WIDTH` from `display.rs`. -/
def DISPLAY_WIDTH : Nat := 64

/-- `DISPLAY_HEIGHT` from `display.rs`. -/
def DISPLAY_HEIGHT : Nat := 32

/-- `DISPLAY_MAX_X` from `gpu.rs`. -/
def DISPLAY_MAX_X : Nat := DISPLAY_WIDTH - 1

/-- `DISPLAY_MAX_Y` from `gpu.rs`. -/
def DISPLAY_MAX_Y : Nat := DISPLAY_HEIGHT - 1

/-- `SPRITE_WIDTH` from `gpu.rs`. -/
def SPRITE_WIDTH : Nat := 8

/-- `GraphicMemory`: the flat `[u8; 64*32]` pixel array, indexed by
`row * DISPLAY_WIDTH + column` as in its `Index` impl. -/
abbrev GraphicMemory := Nat → Nat

/-- Point update of one framebuffer cell (`self.memory[y][x] = v`). -/
def GraphicMemory.setPixel (gm : GraphicMemory) (idx v : Nat) : GraphicMemory :=
  fun i => if i = idx then v else gm i

/-- `u8::rotate_right` on a byte value. -/
def rotr8 (v r : Nat) : Nat := ((v >>> (r % 8)) ||| (v <<< (8 - r % 8))) % 256

/-- `u8::rotate_left` on a byte value. -/
def rotl8 (v r : Nat) : Nat := ((v <<< (r % 8)) ||| (v >>> (8 - r % 8))) % 256

/-- The inner `for sprite_position_x in 0..SPRITE_WIDTH` loop of
`Chip8Gpu::draw_sprite`: `rem` positions remain, `pos` is the current
`sprite_position_x`, `dx` the current `display_x`.  A column beyond
`DISPLAY_MAX_X` is skipped by `continue`, which also skips the
`display_x += 1` increment. -/
def drawBitsAux (sprite_new_row dy : Nat) :
    Nat → Nat → Nat → GraphicMemory → Bool → GraphicMemory × Bool
  | 0, _, _, gm, fl => (gm, fl)
  | rem + 1, pos, dx, gm, fl =>
    if dx > DISPLAY_MAX_X then drawBitsAux sprite_new_row dy rem (pos + 1) dx gm fl
    else
      let current_mask := rotr8 0x80 pos
      let old_pixel := gm (dy * DISPLAY_WIDTH + dx)
      let new_pixel := rotl8 (sprite_new_row &&& current_mask) (pos + 1)
      let gm' := GraphicMemory.setPixel gm (dy * DISPLAY_WIDTH + dx) (old_pixel ^^^ new_pixel)
      let fl' := fl || (old_pixel &&& new_pixel == 1)
      drawBitsAux sprite_new_row dy rem (pos + 1) (dx + 1) gm' fl'

/-- The outer `for row in 0..rows` loop of `Chip8Gpu::draw_sprite`:
the sprite byte is read (possibly panicking, `none`) before the
`display_y > DISPLAY_MAX_Y` check; a skipped row leaves `display_y`
unchanged (`continue` skips the `display_y += 1` increment). -/
def drawRowsAux (start_x address_register : Nat) (mem : Memory) :
    Nat → Nat → Nat → GraphicMemory → Bool → Option (GraphicMemory × Bool)
  | 0, _, _, gm, fl => some (gm, fl)
  | rem + 1, row, dy, gm, fl =>
    match Memory.read mem ((address_register + row) % 65536) with
    | none => none
    | some sprite_new_row =>
      if dy > DISPLAY_MAX_Y then
        drawRowsAux start_x address_register mem rem (row + 1) dy gm fl
      else
        let dx0 := if start_x > DISPLAY_MAX_X then start_x % DISPLAY_WIDTH else start_x
        let p := drawBitsAux sprite_new_row dy SPRITE_WIDTH 0 dx0 gm fl
        drawRowsAux start_x address_register mem rem (row + 1) (dy + 1) p.1 p.2

/-- `Chip8Gpu::draw_sprite`: XOR-draws `rows` sprite bytes read from
`memory[address_register + row]`; returns the updated framebuffer and the
`is_flipped` collision flag, or `none` when a sprite-byte read panics. -/
def Chip8Gpu.draw_sprite (gm : GraphicMemory) (start_x start_y rows address_register : Nat)
    (mem : Memory) : Option (GraphicMemory × Bool) :=
  let dy0 := if start_y > DISPLAY_MAX_Y then start_y % DISPLAY_HEIGHT else start_y
  drawRowsAux start_x address_register mem rows 0 dy0 gm false

/-- `Chip8Gpu::clear` via `GraphicMemory::clear`: zero every pixel. -/
def Chip8Gpu.clear : GraphicMemory := fun _ => 0

/-- `Chip8OpCodesProcessor::math_vx_equal_vx_plus_vy` (opcode 8xy4): store
the wrapping sum in `V[x]`, then set `VF` to the carry flag. -/
def math_vx_equal_vx_plus_vy (registers : Registers) (x y : Nat) : Registers :=
  let vx := Registers.get_register_at registers x
  let vy := Registers.get_register_at registers y
  let r1 := Registers.set_register_at registers x ((vx + vy) % 256)
  if vx + vy > 0xff then Registers.set_register_at r1 0xf 0x1
  else Registers.set_register_at r1 0xf 0x0

/-- `Chip8OpCodesProcessor::mem_i_equal_sprite_addr_vx` (opcode Fx29):
panics (here `none`) when `V[x] > 0xf`, else yields the new address
register `5 * V[x]`. -/
def mem_i_equal_sprite_addr_vx (registers : Registers) (x : Nat) : Option Nat :=
  let v := Registers.get_register_at registers x
  if v > 0xf then none else some (5 * v)

/-- The loop body of `Chip8OpCodesProcessor::mem_reg_dump` (opcode Fx55):
write `V[z], V[z+1], …` to consecutive addresses starting at `counter`,
for `rem` registers; the counter is a separate 16-bit cursor. -/
def regDumpAux (registers : Registers) : Nat → Nat → Memory → Nat → Option Memory
  | _, _, mem, 0 => some mem
  | counter, z, mem, rem + 1 =>
    match Memory.write mem counter (Registers.get_register_at registers z) with
    | none => none
    | some m' => regDumpAux registers ((counter + 1) % 65536) (z + 1) m' rem

/-- `Chip8OpCodesProcessor::mem_reg_dump`: store `V[0..=x]` into memory
starting at the address register, via a separate counter. -/
def mem_reg_dump (registers : Registers) (mem : Memory) (address_register x : Nat) :
    Option Memory :=
  regDumpAux registers address_register 0 mem (x + 1)

/-- The loop body of `Chip8OpCodesProcessor::mem_reg_load` (opcode Fx65). -/
def regLoadAux (mem : Memory) : Nat → Nat → Registers → Nat → Option Registers
  | _, _, registers, 0 => some registers
  | counter, z, registers, rem + 1 =>
    match Memory.read mem counter with
    | none => none
    | some v => regLoadAux mem ((counter + 1) % 65536) (z + 1)
        (Registers.set_register_at registers z v) rem

/-- `Chip8OpCodesProcessor::mem_reg_load`: load `V[0..=x]` from memory
starting at the address register, via a separate counter. -/
def mem_reg_load (registers : Registers) (mem : Memory) (address_register x : Nat) :
    Option Registers :=
  regLoadAux mem address_register 0 registers (x + 1)

/-- `Chip8OpCodesProcessor::return_from_subroutine` (opcode 00EE): the new
program counter is popped off the stack. -/
def return_from_subroutine (stack : Stack) : Option (Nat × Stack) :=
  Stack.pop stack

/-- `Chip8OpCodesProcessor::jump_to_address` (opcode 1nnn). -/
def jump_to_address (address : Nat) : Nat := address

/-- `Chip8OpCodesProcessor::call_subroutine` (opcode 2nnn): push the current
program counter, then jump. -/
def call_subroutine (program_counter address : Nat) (stack : Stack) :
    Option (Nat × Stack) :=
  match Stack.push stack program_counter with
  | none => none
  | some st' => some (address, st')

/-- `Chip8OpCodesProcessor::cond_vx_equal_nn` (opcode 3xnn): skip the next
instruction (16-bit `+= 2`) when `V[x] = nn`. -/
def cond_vx_equal_nn (registers : Registers) (program_counter x nn : Nat) : Nat :=
  if Registers.get_register_at registers x = nn then
    (program_counter + INSTRUCTION_SIZE) % 65536
  else program_counter

/-- `Chip8OpCodesProcessor::cond_vx_not_equal_nn` (opcode 4xnn). -/
def cond_vx_not_equal_nn (registers : Registers) (program_counter x nn : Nat) : Nat :=
  if Registers.get_register_at registers x ≠ nn then
    (program_counter + INSTRUCTION_SIZE) % 65536
  else program_counter

/-- `Chip8OpCodesProcessor::cond_vx_equal_vy` (opcode 5xy0): the `Registers`
array access panics (here `none`) when the second index exceeds 15 (the
chipset passes `opcode.get_short_address()`, which is only below 16 when the
opcode's `y` nibble is zero); the first index is a 4-bit field and is always
in bounds. -/
def cond_vx_equal_vy (registers : Registers) (program_counter x y : Nat) :
    Option Nat :=
  if y ≥ 16 then none
  else if Registers.get_register_at registers x = Registers.get_register_at registers y then
    some ((program_counter + INSTRUCTION_SIZE) % 65536)
  else some program_counter

/-- `Chip8OpCodesProcessor::const_vx_equal_nn` (opcode 6xnn). -/
def const_vx_equal_nn (registers : Registers) (x nn : Nat) : Registers :=
  Registers.set_register_at registers x nn

/-- `Chip8OpCodesProcessor::const_vx_plus_equal_nn` (opcode 7xnn):
wrapping u8 addition. -/
def const_vx_plus_equal_nn (registers : Registers) (x nn : Nat) : Registers :=
  Registers.set_register_at registers x
    ((Registers.get_register_at registers x + nn) % 256)

/-- `Chip8OpCodesProcessor::assign_vx_equal_vy` (opcode 8xy0). -/
def assign_vx_equal_vy (registers : Registers) (x y : Nat) : Registers :=
  Registers.set_register_at registers x (Registers.get_register_at registers y)

/-- `Chip8OpCodesProcessor::bitop_vx_equal_vx_or_vy` (opcode 8xy1). -/
def bitop_vx_equal_vx_or_vy (registers : Registers) (x y : Nat) : Registers :=
  Registers.set_register_at registers x
    (Registers.get_register_at registers x ||| Registers.get_register_at registers y)

/-- `Chip8OpCodesProcessor::bitop_vx_equal_vx_and_vy` (opcode 8xy2). -/
def bitop_vx_equal_vx_and_vy (registers : Registers) (x y : Nat) : Registers :=
  Registers.set_register_at registers x
    (Registers.get_register_at registers x &&& Registers.get_register_at registers y)

/-- `Chip8OpCodesProcessor::bitop_vx_equal_vx_xor_vy` (opcode 8xy3). -/
def bitop_vx_equal_vx_xor_vy (registers : Registers) (x y : Nat) : Registers :=
  Registers.set_register_at registers x
    (Registers.get_register_at registers x ^^^ Registers.get_register_at registers y)

/-- `Chip8OpCodesProcessor::math_vx_equal_vx_minus_vy` (opcode 8xy5):
wrapping u8 subtraction; VF = 1 iff `vx > vy` (no borrow). -/
def math_vx_equal_vx_minus_vy (registers : Registers) (x y : Nat) : Registers :=
  let vx := Registers.get_register_at registers x
  let vy := Registers.get_register_at registers y
  let r1 := Registers.set_register_at registers x ((vx + (256 - vy % 256)) % 256)
  if vx > vy then Registers.set_register_at r1 0xf 0x1
  else Registers.set_register_at r1 0xf 0x0

/-- `Chip8OpCodesProcessor::bitop_vx_equal_vx_shr` (opcode 8xy6). -/
def bitop_vx_equal_vx_shr (registers : Registers) (x : Nat) : Registers :=
  let vx := Registers.get_register_at registers x
  let r1 := Registers.set_register_at registers 0xf (vx &&& 0x01)
  Registers.set_register_at r1 x (vx >>> 1)

/-- `Chip8OpCodesProcessor::math_vx_equal_vy_minus_vx` (opcode 8xy7). -/
def math_vx_equal_vy_minus_vx (registers : Registers) (x y : Nat) : Registers :=
  let vx := Registers.get_register_at registers x
  let vy := Registers.get_register_at registers y
  let r1 := Registers.set_register_at registers x ((vy + (256 - vx % 256)) % 256)
  if vy > vx then Registers.set_register_at r1 0xf 0x1
  else Registers.set_register_at r1 0xf 0x0

/-- `Chip8OpCodesProcessor::bitop_vx_equal_vx_shl` (opcode 8xyE):
u8 shift-left truncates. -/
def bitop_vx_equal_vx_shl (registers : Registers) (x : Nat) : Registers :=
  let vx := Registers.get_register_at registers x
  let r1 := Registers.set_register_at registers 0xf
    (if vx &&& 0x80 = 0x80 then 0x1 else 0x0)
  Registers.set_register_at r1 x ((vx <<< 1) % 256)

/-- `Chip8OpCodesProcessor::cond_vx_not_equal_vy` (opcode 9xy0). -/
def cond_vx_not_equal_vy (registers : Registers) (program_counter x y : Nat) : Nat :=
  if Registers.get_register_at registers x ≠ Registers.get_register_at registers y then
    (program_counter + INSTRUCTION_SIZE) % 65536
  else program_counter

/-- `Chip8OpCodesProcessor::mem_i_equal_nnn` (opcode Annn). -/
def mem_i_equal_nnn (nnn : Nat) : Nat := nnn

/-- `Chip8OpCodesProcessor::flow_pc_equal_v0_plus_nnn` (opcode Bnnn):
16-bit add of `nnn` and `V[0]`. -/
def flow_pc_equal_v0_plus_nnn (nnn : Nat) (registers : Registers) : Nat :=
  (nnn + Registers.get_register_at registers 0) % 65536

/-- `Chip8OpCodesProcessor::rand_vx_equal_rand_and_nn` (opcode Cxnn);
`rand` is the byte the generator collaborator produced. -/
def rand_vx_equal_rand_and_nn (rand : Nat) (registers : Registers) (x nn : Nat) :
    Registers :=
  Registers.set_register_at registers x (rand &&& nn)

/-- `Chip8OpCodesProcessor::draw_vx_vy_n` (opcode Dxyn): draw the sprite at
`(V[x], V[y])` and put the collision flag (as a byte) into VF. -/
def draw_vx_vy_n (x y n : Nat) (gpu : GraphicMemory) (mem : Memory)
    (address_register : Nat) (registers : Registers) :
    Option (GraphicMemory × Registers) :=
  match Chip8Gpu.draw_sprite gpu (Registers.get_register_at registers x)
      (Registers.get_register_at registers y) n address_register mem with
  | none => none
  | some (gm', collided) =>
    some (gm', Registers.set_register_at registers 0xf (if collided then 1 else 0))

/-- `Chip8OpCodesProcessor::mem_i_equal_i_plus_vx` (opcode Fx1E):
16-bit add. -/
def mem_i_equal_i_plus_vx (registers : Registers) (address_register x : Nat) : Nat :=
  (address_register + Registers.get_register_at registers x) % 65536

/-- `Chip8OpCodesProcessor::mem_bcd` (opcode Fx33): the `f32` floor
divisions in the source are exact integer division/remainder on byte
values; the three writes can panic (`none`) out of bounds, and the `u16`
address increments wrap. -/
def mem_bcd (registers : Registers) (address_register : Nat) (mem : Memory)
    (x : Nat) : Option Memory :=
  let vx := Registers.get_register_at registers x
  let hundreds := vx / 100
  let tens := (vx - hundreds * 100) / 10
  let ones := vx - hundreds * 100 - tens * 10
  match Memory.write mem address_register hundreds with
  | none => none
  | some m1 =>
    match Memory.write m1 ((address_register + 0x1) % 65536) tens with
    | none => none
    | some m2 => Memory.write m2 ((address_register + 0x2) % 65536) ones

/-- `Chip8OpCodesProcessor::keyop_if_key_equal_vx` (opcode Ex9E): `pressed`
is what `keyboard.get_pressed_key()` returned; the escape key redirects the
program counter to the sentinel `u16::max_value() - 2`. -/
def keyop_if_key_equal_vx (pressed : Option Key) (registers : Registers)
    (program_counter x : Nat) : Nat :=
  match pressed with
  | none => program_counter
  | some .keyESC => 65535 - 2
  | some k =>
    if Registers.get_register_at registers x = k.toByte then
      (program_counter + INSTRUCTION_SIZE) % 65536
    else program_counter

/-- `Chip8OpCodesProcessor::keyop_if_key_not_equal_vx` (opcode ExA1). -/
def keyop_if_key_not_equal_vx (pressed : Option Key) (registers : Registers)
    (program_counter x : Nat) : Nat :=
  match pressed with
  | none => (program_counter + INSTRUCTION_SIZE) % 65536
  | some .keyESC => 65535 - 2
  | some k =>
    if Registers.get_register_at registers x ≠ k.toByte then
      (program_counter + INSTRUCTION_SIZE) % 65536
    else program_counter

/-- `Chip8OpCodesProcessor::keyop_vx_equal_key` (opcode Fx0A): `waitKey` is
what the blocking `keyboard.wait_for_key_press()` returned; the escape key
sets the sentinel program counter instead of writing a register. -/
def keyop_vx_equal_key (waitKey : Key) (registers : Registers)
    (x program_counter : Nat) : Registers × Nat :=
  match waitKey with
  | .keyESC => (registers, 65535 - 2)
  | k => (Registers.set_register_at registers x k.toByte, program_counter)

/-- `Chip8OpCodesProcessor::timer_vx_equal_get_delay` (opcode Fx07). -/
def timer_vx_equal_get_delay (delay_timer : Nat) (registers : Registers)
    (x : Nat) : Registers :=
  Registers.set_register_at registers x delay_timer

/-- `Chip8OpCodesProcessor::timer_delay_timer_equal_vx` (opcode Fx15). -/
def timer_delay_timer_equal_vx (registers : Registers) (x : Nat) : Nat :=
  Registers.get_register_at registers x

/-! ## Chip8Chipset (chipset.rs) -/

/-- The full VM state owned by `Chip8Chipset` (the external collaborators —
keyboard, display, random generator — are passed to `tick` as inputs). -/
structure Chip8State where
  memory : Memory
  registers : Registers
  address_register : Nat
  program_counter : Nat
  stack : Stack
  gpu : GraphicMemory
  delay_timer : Nat
  sound_timer : Nat

/-- Outcome of one dispatch arm inside `tick`: `next` falls through to the
`program_counter += INSTRUCTION_SIZE` advance, `jumped` corresponds to
`skip_instruction = true`, `ended` is the early `return Err` of the
all-zero word, and `fault` is a Rust panic. -/
inductive StepResult where
  | next (s : Chip8State)
  | jumped (s : Chip8State)
  | ended (s : Chip8State)
  | fault

/-- Result of `Chip8Chipset::tick`: `ok` is `Ok(())`, `halted` is the
`Err("No more opcodes")` return, `panic` is a Rust panic. -/
inductive TickResult where
  | ok (s : Chip8State)
  | halted (s : Chip8State)
  | panic

/-- Functional update for the `&mut self.gpu` borrow in the dispatch. -/
def Chip8State.withGpu (s : Chip8State) (gpu : GraphicMemory) : Chip8State :=
  { s with gpu := gpu }

/-- Functional update for the `&mut self.registers` borrow. -/
def Chip8State.withRegisters (s : Chip8State) (registers : Registers) : Chip8State :=
  { s with registers := registers }

/-- Functional update for the `&mut self.memory` borrow. -/
def Chip8State.withMemory (s : Chip8State) (memory : Memory) : Chip8State :=
  { s with memory := memory }

/-- Functional update for the `&mut self.program_counter` borrow. -/
def Chip8State.withPc (s : Chip8State) (program_counter : Nat) : Chip8State :=
  { s with program_counter := program_counter }

/-- Functional update for the `&mut self.address_register` borrow. -/
def Chip8State.withI (s : Chip8State) (address_register : Nat) : Chip8State :=
  { s with address_register := address_register }

/-- Functional update for the `&mut self.delay_timer` borrow. -/
def Chip8State.withDelay (s : Chip8State) (delay_timer : Nat) : Chip8State :=
  { s with delay_timer := delay_timer }

/-- Functional update for handlers borrowing both the stack and the
program counter (CALL / RET). -/
def Chip8State.withStackPc (s : Chip8State) (stack : Stack)
    (program_counter : Nat) : Chip8State :=
  { s with stack := stack, program_counter := program_counter }

/-- Functional update for the draw instruction (framebuffer and VF). -/
def Chip8State.withGpuRegisters (s : Chip8State) (gpu : GraphicMemory)
    (registers : Registers) : Chip8State :=
  { s with gpu := gpu, registers := registers }

/-- Functional update for Fx0A (register file and program counter). -/
def Chip8State.withRegistersPc (s : Chip8State) (registers : Registers)
    (program_counter : Nat) : Chip8State :=
  { s with registers := registers, program_counter := program_counter }

/-- Extract the post-tick state, when the tick did not panic. -/
def TickResult.state? : TickResult → Option Chip8State
  | .ok s => some s
  | .halted s => some s
  | .panic => none

/-- The per-tick timer decrement at the top of `Chip8Chipset::tick`
(each timer is decremented by 1 when positive). -/
def timersDecremented (s : Chip8State) : Chip8State :=
  { s with
    delay_timer := if s.delay_timer > 0 then s.delay_timer - 1 else s.delay_timer
    sound_timer := if s.sound_timer > 0 then s.sound_timer - 1 else s.sound_timer }

/-- The big-endian instruction word fetched at the program counter
(`current_opcode` in `chipset.rs`, without its bounds handling). -/
def fetchWord (s : Chip8State) : Nat :=
  ((s.memory s.program_counter) <<< 8) + s.memory (s.program_counter + 1)

/-- The dispatch `match opcode.get_parts()` inside `Chip8Chipset::tick`,
arm for arm in source order (the source match is first-match over disjoint
patterns), each arm calling the `Chip8OpCodesProcessor` handler with the
fields the chipset passes it.  `pressed` is what
`keyboard.get_pressed_key()` would return this tick, `waitKey` what
`keyboard.wait_for_key_press()` would return, `rand` what the random byte
generator would produce. -/
def executeOp (pressed : Option Key) (waitKey : Key) (rand : Nat) (s : Chip8State)
    (w : Nat) : StepResult :=
  let op := OpCode.from_data w
  let cls := (op.opcode &&& 0xf000) >>> 12
  let x := op.x
  let y := op.y
  let n := op.n
  if cls = 0x0 ∧ x = 0x0 ∧ y = 0xe ∧ n = 0x0 then
    .next (s.withGpu Chip8Gpu.clear)
  else if cls = 0x0 ∧ x = 0x0 ∧ y = 0xe ∧ n = 0xe then
    match return_from_subroutine s.stack with
    | none => .fault
    | some (pc', st') => .next (s.withStackPc st' pc')
  else if cls = 0x1 then
    .jumped (s.withPc (jump_to_address op.get_address))
  else if cls = 0x2 then
    match call_subroutine s.program_counter op.get_address s.stack with
    | none => .fault
    | some (pc', st') => .jumped (s.withStackPc st' pc')
  else if cls = 0x3 then
    .next (s.withPc (cond_vx_equal_nn s.registers s.program_counter x
      op.get_short_address))
  else if cls = 0x4 then
    .next (s.withPc (cond_vx_not_equal_nn s.registers s.program_counter x
      op.get_short_address))
  else if cls = 0x5 ∧ n = 0x0 then
    -- the chipset passes opcode.get_short_address() as the second register index
    match cond_vx_equal_vy s.registers s.program_counter x op.get_short_address with
    | none => .fault
    | some pc' => .next (s.withPc pc')
  else if cls = 0x6 then
    .next (s.withRegisters (const_vx_equal_nn s.registers x op.get_short_address))
  else if cls = 0x7 then
    .next (s.withRegisters (const_vx_plus_equal_nn s.registers x op.get_short_address))
  else if cls = 0x8 ∧ n = 0x0 then
    .next (s.withRegisters (assign_vx_equal_vy s.registers x y))
  else if cls = 0x8 ∧ n = 0x1 then
    .next (s.withRegisters (bitop_vx_equal_vx_or_vy s.registers x y))
  else if cls = 0x8 ∧ n = 0x2 then
    .next (s.withRegisters (bitop_vx_equal_vx_and_vy s.registers x y))
  else if cls = 0x8 ∧ n = 0x3 then
    .next (s.withRegisters (bitop_vx_equal_vx_xor_vy s.registers x y))
  else if cls = 0x8 ∧ n = 0x4 then
    .next (s.withRegisters (math_vx_equal_vx_plus_vy s.registers x y))
  else if cls = 0x8 ∧ n = 0x5 then
    .next (s.withRegisters (math_vx_equal_vx_minus_vy s.registers x y))
  else if cls = 0x8 ∧ n = 0x6 then
    .next (s.withRegisters (bitop_vx_equal_vx_shr s.registers x))
  else if cls = 0x8 ∧ n = 0x7 then
    .next (s.withRegisters (math_vx_equal_vy_minus_vx s.registers x y))
  else if cls = 0x8 ∧ n = 0xe then
    .next (s.withRegisters (bitop_vx_equal_vx_shl s.registers x))
  else if cls = 0x9 ∧ n = 0x0 then
    .next (s.withPc (cond_vx_not_equal_vy s.registers s.program_counter x y))
  else if cls = 0xa then
    .next (s.withI (mem_i_equal_nnn op.get_address))
  else if cls = 0xb then
    .jumped (s.withPc (flow_pc_equal_v0_plus_nnn op.get_address s.registers))
  else if cls = 0xc then
    .next (s.withRegisters (rand_vx_equal_rand_and_nn rand s.registers x
      op.get_short_address))
  else if cls = 0xd then
    match draw_vx_vy_n x y op.get_n s.gpu s.memory s.address_register s.registers with
    | none => .fault
    | some (gm', r') => .next (s.withGpuRegisters gm' r')
  else if cls = 0xe ∧ y = 0x9 ∧ n = 0xe then
    .next (s.withPc (keyop_if_key_equal_vx pressed s.registers s.program_counter x))
  else if cls = 0xe ∧ y = 0xa ∧ n = 0x1 then
    .next (s.withPc (keyop_if_key_not_equal_vx pressed s.registers s.program_counter x))
  else if cls = 0xf ∧ y = 0x0 ∧ n = 0x7 then
    .next (s.withRegisters (timer_vx_equal_get_delay s.delay_timer s.registers x))
  else if cls = 0xf ∧ y = 0x0 ∧ n = 0xa then
    .next (s.withRegistersPc (keyop_vx_equal_key waitKey s.registers x
      s.program_counter).1 (keyop_vx_equal_key waitKey s.registers x
      s.program_counter).2)
  else if cls = 0xf ∧ y = 0x1 ∧ n = 0x5 then
    .next (s.withDelay (timer_delay_timer_equal_vx s.registers x))
  else if cls = 0xf ∧ y = 0x1 ∧ n = 0x8 then
    -- sound_sound_timer_equal_vx: the handler body is `//TODO Implement`
    .next s
  else if cls = 0xf ∧ y = 0x1 ∧ n = 0xe then
    .next (s.withI (mem_i_equal_i_plus_vx s.registers s.address_register x))
  else if cls = 0xf ∧ y = 0x2 ∧ n = 0x9 then
    match mem_i_equal_sprite_addr_vx s.registers x with
    | none => .fault
    | some i' => .next (s.withI i')
  else if cls = 0xf ∧ y = 0x3 ∧ n = 0x3 then
    match mem_bcd s.registers s.address_register s.memory x with
    | none => .fault
    | some m' => .next (s.withMemory m')
  else if cls = 0xf ∧ y = 0x5 ∧ n = 0x5 then
    match mem_reg_dump s.registers s.memory s.address_register x with
    | none => .fault
    | some m' => .next (s.withMemory m')
  else if cls = 0xf ∧ y = 0x6 ∧ n = 0x5 then
    match mem_reg_load s.registers s.memory s.address_register x with
    | none => .fault
    | some r' => .next (s.withRegisters r')
  else if cls = 0x0 ∧ x = 0x0 ∧ y = 0x0 ∧ n = 0x0 then
    -- the all-zero padding word: early `return Err("No more opcodes")`
    .ended s
  else
    -- panic!("Unknown opcode")
    .fault

/-- `Chip8Chipset::tick`: decrement the timers, fetch (halting when the
program counter has left memory, panicking when the second fetch byte is
out of bounds), dispatch, then advance the program counter by
`INSTRUCTION_SIZE` unless the arm set `skip_instruction` or returned
early. -/
def tick (pressed : Option Key) (waitKey : Key) (rand : Nat) (s0 : Chip8State) : TickResult :=
  let s := timersDecremented s0
  if s.program_counter < MEMORY_SIZE then
    match Memory.read s.memory s.program_counter,
        Memory.read s.memory (s.program_counter + 1) with
    | some hi, some lo =>
      (match executeOp pressed waitKey rand s ((hi <<< 8) + lo) with
      | .next s' =>
        .ok { s' with program_counter := (s'.program_counter + INSTRUCTION_SIZE) % 65536 }
      | .jumped s' => .ok s'
      | .ended s' => .halted s'
      | .fault => .panic)
    | _, _ => .panic
  else
    .halted { s with program_counter := (s.program_counter + INSTRUCTION_SIZE) % 65536 }

/-! ## Concrete machines used by the witnesses and counterexamples -/

/-- An empty stack. -/

def emptyStack : Stack := { memory := fun _ => 0, stack_pointer := 0 }

/-- The freshly initialised machine (zero memory, registers, framebuffer;
program counter at `PROGRAM_COUNTER_BOUNDARY`). -/
def baseState : Chip8State :=
  { memory := fun _ => 0
    registers := fun _ => 0
    address_register := 0
    program_counter := 0x200
    stack := emptyStack
    gpu := fun _ => 0
    delay_timer := 0
    sound_timer := 0 }

/-- Register file with `V[0xF] = 3`, for the 8xy4 counterexample. -/
def rC3 : Registers := Registers.set_register_at (fun _ => 0) 0xf 3

/-- A state whose program counter 5000 lies beyond memory. -/
def sOob : Chip8State := { baseState with program_counter := 5000 }

/-- State with `LD I,Font(V1)` at 0x200 and `V[1] = 0x10`. -/
def sFx29 : Chip8State :=
  { baseState with
    memory := fun a => if a = 0x200 then 0xf1 else if a = 0x201 then 0x29 else 0
    registers := fun i => if i = 1 then 0x10 else 0 }

/-- State with `LD [I],V0..V2` (0xF255) at 0x200 and I = 0x300. -/
def sDump : Chip8State :=
  { baseState with
    memory := fun a => if a = 0x200 then 0xf2 else if a = 0x201 then 0x55 else 0
    address_register := 0x300 }

/-- The state `sDump` reaches after one tick. -/
def sAfterDump : Chip8State :=
  { sDump with
    memory := fun a => if a = 0x302 then 0 else if a = 0x301 then 0 else
      if a = 0x300 then 0 else sDump.memory a
    program_counter := 0x202 }

/-- State with `SKP V1` (0xE19E) at 0x200. -/
def sEsc : Chip8State :=
  { baseState with
    memory := fun a => if a = 0x200 then 0xe1 else if a = 0x201 then 0x9e else 0 }

/-- State with `CALL 0x300` at 0x200 and `RET` at 0x300. -/
def sCall : Chip8State :=
  { baseState with
    memory := fun a => if a = 0x200 then 0x23 else if a = 0x201 then 0x00 else
      if a = 0x300 then 0x00 else if a = 0x301 then 0xee else 0 }

/-- The state `sCall` reaches after the CALL tick. -/
def sAfterCall : Chip8State :=
  { sCall with
    stack := { memory := fun i => if i = 0 then 0x200 else emptyStack.memory i
               stack_pointer := 1 }
    program_counter := 0x300 }

/-- The state `sAfterCall` reaches after the RET tick. -/
def sAfterRet : Chip8State :=
  { sAfterCall with
    stack := { memory := fun i => if i = 0 then 0x200 else emptyStack.memory i
               stack_pointer := 0 }
    program_counter := 0x202 }

/-- Concrete state for the Fx18 evaluation: `LD ST,V5` at 0x200 with V5 = 7. -/
def sFx18 : Chip8State :=
  { baseState with
    memory := fun a => if a = 0x200 then 0xf5 else if a = 0x201 then 0x18 else 0
    registers := fun i => if i = 5 then 7 else 0 }

/-- The all-dark framebuffer. -/
def gmZero : GraphicMemory := fun _ => 0

/-- Memory holding the two-row sprite 0xFF 0xFF at address 0. -/
def memFF : Memory := fun a => if a < 2 then 0xff else 0

/-- State with `LD V0,5` at 0x200 and timers 5 (delay) and 3 (sound). -/

def sC8 : Chip8State :=
  { baseState with
    memory := fun a => if a = 0x200 then 0x60 else if a = 0x201 then 0x05 else 0
    delay_timer := 5
    sound_timer := 3 }

/-- The state `sC8` reaches after one tick. -/
def sC8' : Chip8State :=
  { sC8 with
    registers := fun i => if i = 0 then 5 else sC8.registers i
    delay_timer := 4
    sound_timer := 2
    program_counter := 0x202 }

/-! ## General lemmas about the embedding -/

/-- Reading back the register just written. -/
theorem Registers.get_set_self (r : Registers) (i v : Nat) :
    Registers.get_register_at (Registers.set_register_at r i v) i = v := by
  simp [Registers.get_register_at, Registers.set_register_at]

/-- Writing one register leaves the others unchanged. -/
theorem Registers.get_set_ne (r : Registers) {i j : Nat} (v : Nat) (h : j ≠ i) :
    Registers.get_register_at (Registers.set_register_at r i v) j =
      Registers.get_register_at r j := by
  simp [Registers.get_register_at, Registers.set_register_at, h]

/-- The all-zero word selects the early-return arm. -/
theorem executeOp_zero (pressed : Option Key) (waitKey : Key) (rand : Nat) (s : Chip8State) :
    executeOp pressed waitKey rand s 0 = .ended s := rfl

/-- When the program counter has left memory, `tick` halts after the
timer decrement, still advancing the program counter (16-bit wrapping). -/
theorem tick_halted_of_pc_oob (pressed : Option Key) (waitKey : Key) (rand : Nat)
    (s : Chip8State) (h : MEMORY_SIZE ≤ s.program_counter) :
    tick pressed waitKey rand s =
      .halted { timersDecremented s with
        program_counter := (s.program_counter + INSTRUCTION_SIZE) % 65536 } := by
  unfold tick
  have h' : ¬ s.program_counter < MEMORY_SIZE := by omega
  simp [timersDecremented, h']

/-- A fetch whose second byte lies outside memory panics. -/
theorem tick_panic_at_last_byte (pressed : Option Key) (waitKey : Key) (rand : Nat)
    (s : Chip8State) (h1 : s.program_counter < MEMORY_SIZE)
    (h2 : ¬ s.program_counter + 1 < MEMORY_SIZE) :
    tick pressed waitKey rand s = .panic := by
  unfold tick
  simp [timersDecremented, Memory.read, h1, h2]

/-- With both fetch bytes in bounds, `tick` is the dispatch of the fetched
word on the timer-decremented state followed by the conditional program
counter advance. -/
theorem tick_eq_dispatch (pressed : Option Key) (waitKey : Key) (rand : Nat)
    (s : Chip8State) (hpc : s.program_counter + 1 < MEMORY_SIZE) :
    tick pressed waitKey rand s =
      (match executeOp pressed waitKey rand (timersDecremented s) (fetchWord s) with
       | .next s' =>
         .ok { s' with program_counter := (s'.program_counter + INSTRUCTION_SIZE) % 65536 }
       | .jumped s' => .ok s'
       | .ended s' => .halted s'
       | .fault => .panic) := by
  unfold tick
  have h0 : s.program_counter < MEMORY_SIZE := by omega
  simp [timersDecremented, Memory.read, h0, hpc, fetchWord]

/-- Dispatch selects the Fx29 arm. -/
theorem executeOp_fx29 (pressed : Option Key) (waitKey : Key) (rand : Nat)
    (t : Chip8State) (w x : Nat)
    (hc : (w &&& 0xf000) >>> 12 = 0xf) (hx : (w &&& 0xf00) >>> 8 = x)
    (hy : (w &&& 0xf0) >>> 4 = 0x2) (hn : w &&& 0xf = 0x9) :
    executeOp pressed waitKey rand t w =
      match mem_i_equal_sprite_addr_vx t.registers x with
      | none => .fault
      | some i' => .next (t.withI i') := by
  unfold executeOp
  simp only [OpCode.from_data]
  simp only [hc, hx, hy, hn]
  simp

set_option maxHeartbeats 1000000 in
/-- Dispatch selects the Fx55 arm. -/
theorem executeOp_fx55 (pressed : Option Key) (waitKey : Key) (rand : Nat)
    (t : Chip8State) (w x : Nat)
    (hc : (w &&& 0xf000) >>> 12 = 0xf) (hx : (w &&& 0xf00) >>> 8 = x)
    (hy : (w &&& 0xf0) >>> 4 = 0x5) (hn : w &&& 0xf = 0x5) :
    executeOp pressed waitKey rand t w =
      match mem_reg_dump t.registers t.memory t.address_register x with
      | none => .fault
      | some m' => .next (t.withMemory m') := by
  unfold executeOp
  simp only [OpCode.from_data]
  simp only [hc, hx, hy, hn]
  simp

set_option maxHeartbeats 1000000 in
/-- Dispatch selects the Fx65 arm. -/
theorem executeOp_fx65 (pressed : Option Key) (waitKey : Key) (rand : Nat)
    (t : Chip8State) (w x : Nat)
    (hc : (w &&& 0xf000) >>> 12 = 0xf) (hx : (w &&& 0xf00) >>> 8 = x)
    (hy : (w &&& 0xf0) >>> 4 = 0x6) (hn : w &&& 0xf = 0x5) :
    executeOp pressed waitKey rand t w =
      match mem_reg_load t.registers t.memory t.address_register x with
      | none => .fault
      | some r' => .next (t.withRegisters r') := by
  unfold executeOp
  simp only [OpCode.from_data]
  simp only [hc, hx, hy, hn]
  simp

set_option maxHeartbeats 1000000 in
/-- Dispatch of Ex9E when the pressed key is the escape key. -/
theorem executeOp_ex9e_esc (waitKey : Key) (rand : Nat) (t : Chip8State) (w : Nat)
    (hc : (w &&& 0xf000) >>> 12 = 0xe) (hy : (w &&& 0xf0) >>> 4 = 0x9)
    (hn : w &&& 0xf = 0xe) :
    executeOp (some .keyESC) waitKey rand t w = .next (t.withPc (65535 - 2)) := by
  unfold executeOp
  simp only [OpCode.from_data]
  simp only [hc, hy, hn]
  simp [keyop_if_key_equal_vx]

set_option maxHeartbeats 1000000 in
/-- Dispatch of ExA1 when the pressed key is the escape key. -/
theorem executeOp_exa1_esc (waitKey : Key) (rand : Nat) (t : Chip8State) (w : Nat)
    (hc : (w &&& 0xf000) >>> 12 = 0xe) (hy : (w &&& 0xf0) >>> 4 = 0xa)
    (hn : w &&& 0xf = 0x1) :
    executeOp (some .keyESC) waitKey rand t w = .next (t.withPc (65535 - 2)) := by
  unfold executeOp
  simp only [OpCode.from_data]
  simp only [hc, hy, hn]
  simp [keyop_if_key_not_equal_vx]

set_option maxHeartbeats 1000000 in
/-- Dispatch of Fx0A when the blocking key wait returns the escape key. -/
theorem executeOp_fx0a_esc (pressed : Option Key) (rand : Nat) (t : Chip8State) (w : Nat)
    (hc : (w &&& 0xf000) >>> 12 = 0xf) (hy : (w &&& 0xf0) >>> 4 = 0x0)
    (hn : w &&& 0xf = 0xa) :
    executeOp pressed .keyESC rand t w =
      .next (t.withRegistersPc t.registers (65535 - 2)) := by
  unfold executeOp
  simp only [OpCode.from_data]
  simp only [hc, hy, hn]
  simp [keyop_vx_equal_key]

set_option maxHeartbeats 1000000 in
/-- Dispatch selects the CALL arm for any word of class 2. -/
theorem executeOp_call (pressed : Option Key) (waitKey : Key) (rand : Nat)
    (t : Chip8State) (w : Nat) (hc : (w &&& 0xf000) >>> 12 = 0x2) :
    executeOp pressed waitKey rand t w =
      match call_subroutine t.program_counter (w &&& 0xfff) t.stack with
      | none => .fault
      | some (pc', st') => .jumped (t.withStackPc st' pc') := by
  unfold executeOp
  simp only [OpCode.from_data, OpCode.get_address]
  simp only [hc]
  simp

set_option maxHeartbeats 2000000 in
/-- Dispatch of the literal RET word 0x00EE. -/
theorem executeOp_ret (pressed : Option Key) (waitKey : Key) (rand : Nat)
    (t : Chip8State) :
    executeOp pressed waitKey rand t 0xee =
      match return_from_subroutine t.stack with
      | none => .fault
      | some (pc', st') => .next (t.withStackPc st' pc') := rfl

/-- A `next` dispatch result determines the post-arm state. -/

theorem stepNext_or_elim {X u : Chip8State}
    (h : StepResult.next X = .next u ∨ StepResult.next X = .jumped u
      ∨ StepResult.next X = .ended u) : X = u := by
  rcases h with h | h | h
  · injection h
  · simp at h
  · simp at h

/-- A `jumped` dispatch result determines the post-arm state. -/
theorem stepJumped_or_elim {X u : Chip8State}
    (h : StepResult.jumped X = .next u ∨ StepResult.jumped X = .jumped u
      ∨ StepResult.jumped X = .ended u) : X = u := by
  rcases h with h | h | h
  · simp at h
  · injection h
  · simp at h

/-- An `ended` dispatch result determines the post-arm state. -/
theorem stepEnded_or_elim {X u : Chip8State}
    (h : StepResult.ended X = .next u ∨ StepResult.ended X = .jumped u
      ∨ StepResult.ended X = .ended u) : X = u := by
  rcases h with h | h | h
  · simp at h
  · simp at h
  · injection h

/-- A faulting dispatch never produces a post-arm state. -/
theorem stepFault_or_elim {u : Chip8State}
    (h : StepResult.fault = .next u ∨ StepResult.fault = .jumped u
      ∨ StepResult.fault = .ended u) : False := by
  rcases h with h | h | h <;> simp at h

/-- Arm-by-arm analysis of the dispatch: no instruction arm writes the
sound timer, and the only arm writing the delay timer is Fx15, which sets it
to `V[x]`. -/
theorem executeOp_timer_effects (pressed : Option Key) (waitKey : Key) (rand : Nat)
    (t : Chip8State) (w : Nat) (u : Chip8State)
    (h : executeOp pressed waitKey rand t w = .next u
      ∨ executeOp pressed waitKey rand t w = .jumped u
      ∨ executeOp pressed waitKey rand t w = .ended u) :
    u.sound_timer = t.sound_timer
    ∧ (u.delay_timer = t.delay_timer
      ∨ ((w &&& 0xf000) >>> 12 = 0xf ∧ (w &&& 0xf0) >>> 4 = 0x1 ∧ w &&& 0xf = 0x5
        ∧ u.delay_timer = Registers.get_register_at t.registers ((w &&& 0xf00) >>> 8))) := by
  unfold executeOp at h
  simp only [OpCode.from_data, OpCode.get_address, OpCode.get_short_address,
    OpCode.get_n] at h
  by_cases hc1 : (w &&& 0xf000) >>> 12 = 0x0 ∧ (w &&& 0xf00) >>> 8 = 0x0 ∧ (w &&& 0xf0) >>> 4 = 0xe ∧ w &&& 0xf = 0x0
  · rw [if_pos hc1] at h
    obtain rfl := stepNext_or_elim h
    exact ⟨rfl, Or.inl rfl⟩
  rw [if_neg hc1] at h
  by_cases hc2 : (w &&& 0xf000) >>> 12 = 0x0 ∧ (w &&& 0xf00) >>> 8 = 0x0 ∧ (w &&& 0xf0) >>> 4 = 0xe ∧ w &&& 0xf = 0xe
  · rw [if_pos hc2] at h
    rcases hm : return_from_subroutine t.stack with - | ⟨pc', st'⟩
    · rw [hm] at h
      exact (stepFault_or_elim h).elim
    · rw [hm] at h
      obtain rfl := stepNext_or_elim h
      exact ⟨rfl, Or.inl rfl⟩
  rw [if_neg hc2] at h
  by_cases hc3 : (w &&& 0xf000) >>> 12 = 0x1
  · rw [if_pos hc3] at h
    obtain rfl := stepJumped_or_elim h
    exact ⟨rfl, Or.inl rfl⟩
  rw [if_neg hc3] at h
  by_cases hc4 : (w &&& 0xf000) >>> 12 = 0x2
  · rw [if_pos hc4] at h
    rcases hm : call_subroutine t.program_counter (w &&& 0xfff) t.stack with - | ⟨pc', st'⟩
    · rw [hm] at h
      exact (stepFault_or_elim h).elim
    · rw [hm] at h
      obtain rfl := stepJumped_or_elim h
      exact ⟨rfl, Or.inl rfl⟩
  rw [if_neg hc4] at h
  by_cases hc5 : (w &&& 0xf000) >>> 12 = 0x3
  · rw [if_pos hc5] at h
    obtain rfl := stepNext_or_elim h
    exact ⟨rfl, Or.inl rfl⟩
  rw [if_neg hc5] at h
  by_cases hc6 : (w &&& 0xf000) >>> 12 = 0x4
  · rw [if_pos hc6] at h
    obtain rfl := stepNext_or_elim h
    exact ⟨rfl, Or.inl rfl⟩
  rw [if_neg hc6] at h
  by_cases hc7 : (w &&& 0xf000) >>> 12 = 0x5 ∧ w &&& 0xf = 0x0
  · rw [if_pos hc7] at h
    rcases hm : cond_vx_equal_vy t.registers t.program_counter ((w &&& 0xf00) >>> 8) (w &&& 0xff) with - | pc'
    · rw [hm] at h
      exact (stepFault_or_elim h).elim
    · rw [hm] at h
      obtain rfl := stepNext_or_elim h
      exact ⟨rfl, Or.inl rfl⟩
  rw [if_neg hc7] at h
  by_cases hc8 : (w &&& 0xf000) >>> 12 = 0x6
  · rw [if_pos hc8] at h
    obtain rfl := stepNext_or_elim h
    exact ⟨rfl, Or.inl rfl⟩
  rw [if_neg hc8] at h
  by_cases hc9 : (w &&& 0xf000) >>> 12 = 0x7
  · rw [if_pos hc9] at h
    obtain rfl := stepNext_or_elim h
    exact ⟨rfl, Or.inl rfl⟩
  rw [if_neg hc9] at h
  by_cases hc10 : (w &&& 0xf000) >>> 12 = 0x8 ∧ w &&& 0xf = 0x0
  · rw [if_pos hc10] at h
    obtain rfl := stepNext_or_elim h
    exact ⟨rfl, Or.inl rfl⟩
  rw [if_neg hc10] at h
  by_cases hc11 : (w &&& 0xf000) >>> 12 = 0x8 ∧ w &&& 0xf = 0x1
  · rw [if_pos hc11] at h
    obtain rfl := stepNext_or_elim h
    exact ⟨rfl, Or.inl rfl⟩
  rw [if_neg hc11] at h
  by_cases hc12 : (w &&& 0xf000) >>> 12 = 0x8 ∧ w &&& 0xf = 0x2
  · rw [if_pos hc12] at h
    obtain rfl := stepNext_or_elim h
    exact ⟨rfl, Or.inl rfl⟩
  rw [if_neg hc12] at h
  by_cases hc13 : (w &&& 0xf000) >>> 12 = 0x8 ∧ w &&& 0xf = 0x3
  · rw [if_pos hc13] at h
    obtain rfl := stepNext_or_elim h
    exact ⟨rfl, Or.inl rfl⟩
  rw [if_neg hc13] at h
  by_cases hc14 : (w &&& 0xf000) >>> 12 = 0x8 ∧ w &&& 0xf = 0x4
  · rw [if_pos hc14] at h
    obtain rfl := stepNext_or_elim h
    exact ⟨rfl, Or.inl rfl⟩
  rw [if_neg hc14] at h
  by_cases hc15 : (w &&& 0xf000) >>> 12 = 0x8 ∧ w &&& 0xf = 0x5
  · rw [if_pos hc15] at h
    obtain rfl := stepNext_or_elim h
    exact ⟨rfl, Or.inl rfl⟩
  rw [if_neg hc15] at h
  by_cases hc16 : (w &&& 0xf000) >>> 12 = 0x8 ∧ w &&& 0xf = 0x6
  · rw [if_pos hc16] at h
    obtain rfl := stepNext_or_elim h
    exact ⟨rfl, Or.inl rfl⟩
  rw [if_neg hc16] at h
  by_cases hc17 : (w &&& 0xf000) >>> 12 = 0x8 ∧ w &&& 0xf = 0x7
  · rw [if_pos hc17] at h
    obtain rfl := stepNext_or_elim h
    exact ⟨rfl, Or.inl rfl⟩
  rw [if_neg hc17] at h
  by_cases hc18 : (w &&& 0xf000) >>> 12 = 0x8 ∧ w &&& 0xf = 0xe
  · rw [if_pos hc18] at h
    obtain rfl := stepNext_or_elim h
    exact ⟨rfl, Or.inl rfl⟩
  rw [if_neg hc18] at h
  by_cases hc19 : (w &&& 0xf000) >>> 12 = 0x9 ∧ w &&& 0xf = 0x0
  · rw [if_pos hc19] at h
    obtain rfl := stepNext_or_elim h
    exact ⟨rfl, Or.inl rfl⟩
  rw [if_neg hc19] at h
  by_cases hc20 : (w &&& 0xf000) >>> 12 = 0xa
  · rw [if_pos hc20] at h
    obtain rfl := stepNext_or_elim h
    exact ⟨rfl, Or.inl rfl⟩
  rw [if_neg hc20] at h
  by_cases hc21 : (w &&& 0xf000) >>> 12 = 0xb
  · rw [if_pos hc21] at h
    obtain rfl := stepJumped_or_elim h
    exact ⟨rfl, Or.inl rfl⟩
  rw [if_neg hc21] at h
  by_cases hc22 : (w &&& 0xf000) >>> 12 = 0xc
  · rw [if_pos hc22] at h
    obtain rfl := stepNext_or_elim h
    exact ⟨rfl, Or.inl rfl⟩
  rw [if_neg hc22] at h
  by_cases hc23 : (w &&& 0xf000) >>> 12 = 0xd
  · rw [if_pos hc23] at h
    rcases hm : draw_vx_vy_n ((w &&& 0xf00) >>> 8) ((w &&& 0xf0) >>> 4) (w &&& 0xf) t.gpu t.memory t.address_register t.registers with - | ⟨gm', r'⟩
    · rw [hm] at h
      exact (stepFault_or_elim h).elim
    · rw [hm] at h
      obtain rfl := stepNext_or_elim h
      exact ⟨rfl, Or.inl rfl⟩
  rw [if_neg hc23] at h
  by_cases hc24 : (w &&& 0xf000) >>> 12 = 0xe ∧ (w &&& 0xf0) >>> 4 = 0x9 ∧ w &&& 0xf = 0xe
  · rw [if_pos hc24] at h
    obtain rfl := stepNext_or_elim h
    exact ⟨rfl, Or.inl rfl⟩
  rw [if_neg hc24] at h
  by_cases hc25 : (w &&& 0xf000) >>> 12 = 0xe ∧ (w &&& 0xf0) >>> 4 = 0xa ∧ w &&& 0xf = 0x1
  · rw [if_pos hc25] at h
    obtain rfl := stepNext_or_elim h
    exact ⟨rfl, Or.inl rfl⟩
  rw [if_neg hc25] at h
  by_cases hc26 : (w &&& 0xf000) >>> 12 = 0xf ∧ (w &&& 0xf0) >>> 4 = 0x0 ∧ w &&& 0xf = 0x7
  · rw [if_pos hc26] at h
    obtain rfl := stepNext_or_elim h
    exact ⟨rfl, Or.inl rfl⟩
  rw [if_neg hc26] at h
  by_cases hc27 : (w &&& 0xf000) >>> 12 = 0xf ∧ (w &&& 0xf0) >>> 4 = 0x0 ∧ w &&& 0xf = 0xa
  · rw [if_pos hc27] at h
    obtain rfl := stepNext_or_elim h
    exact ⟨rfl, Or.inl rfl⟩
  rw [if_neg hc27] at h
  by_cases hc28 : (w &&& 0xf000) >>> 12 = 0xf ∧ (w &&& 0xf0) >>> 4 = 0x1 ∧ w &&& 0xf = 0x5
  · rw [if_pos hc28] at h
    obtain rfl := stepNext_or_elim h
    exact ⟨rfl, Or.inr ⟨hc28.1, hc28.2.1, hc28.2.2, rfl⟩⟩
  rw [if_neg hc28] at h
  by_cases hc29 : (w &&& 0xf000) >>> 12 = 0xf ∧ (w &&& 0xf0) >>> 4 = 0x1 ∧ w &&& 0xf = 0x8
  · rw [if_pos hc29] at h
    obtain rfl := stepNext_or_elim h
    exact ⟨rfl, Or.inl rfl⟩
  rw [if_neg hc29] at h
  by_cases hc30 : (w &&& 0xf000) >>> 12 = 0xf ∧ (w &&& 0xf0) >>> 4 = 0x1 ∧ w &&& 0xf = 0xe
  · rw [if_pos hc30] at h
    obtain rfl := stepNext_or_elim h
    exact ⟨rfl, Or.inl rfl⟩
  rw [if_neg hc30] at h
  by_cases hc31 : (w &&& 0xf000) >>> 12 = 0xf ∧ (w &&& 0xf0) >>> 4 = 0x2 ∧ w &&& 0xf = 0x9
  · rw [if_pos hc31] at h
    rcases hm : mem_i_equal_sprite_addr_vx t.registers ((w &&& 0xf00) >>> 8) with - | i'
    · rw [hm] at h
      exact (stepFault_or_elim h).elim
    · rw [hm] at h
      obtain rfl := stepNext_or_elim h
      exact ⟨rfl, Or.inl rfl⟩
  rw [if_neg hc31] at h
  by_cases hc32 : (w &&& 0xf000) >>> 12 = 0xf ∧ (w &&& 0xf0) >>> 4 = 0x3 ∧ w &&& 0xf = 0x3
  · rw [if_pos hc32] at h
    rcases hm : mem_bcd t.registers t.address_register t.memory ((w &&& 0xf00) >>> 8) with - | m'
    · rw [hm] at h
      exact (stepFault_or_elim h).elim
    · rw [hm] at h
      obtain rfl := stepNext_or_elim h
      exact ⟨rfl, Or.inl rfl⟩
  rw [if_neg hc32] at h
  by_cases hc33 : (w &&& 0xf000) >>> 12 = 0xf ∧ (w &&& 0xf0) >>> 4 = 0x5 ∧ w &&& 0xf = 0x5
  · rw [if_pos hc33] at h
    rcases hm : mem_reg_dump t.registers t.memory t.address_register ((w &&& 0xf00) >>> 8) with - | m'
    · rw [hm] at h
      exact (stepFault_or_elim h).elim
    · rw [hm] at h
      obtain rfl := stepNext_or_elim h
      exact ⟨rfl, Or.inl rfl⟩
  rw [if_neg hc33] at h
  by_cases hc34 : (w &&& 0xf000) >>> 12 = 0xf ∧ (w &&& 0xf0) >>> 4 = 0x6 ∧ w &&& 0xf = 0x5
  · rw [if_pos hc34] at h
    rcases hm : mem_reg_load t.registers t.memory t.address_register ((w &&& 0xf00) >>> 8) with - | r'
    · rw [hm] at h
      exact (stepFault_or_elim h).elim
    · rw [hm] at h
      obtain rfl := stepNext_or_elim h
      exact ⟨rfl, Or.inl rfl⟩
  rw [if_neg hc34] at h
  by_cases hc35 : (w &&& 0xf000) >>> 12 = 0x0 ∧ (w &&& 0xf00) >>> 8 = 0x0 ∧ (w &&& 0xf0) >>> 4 = 0x0 ∧ w &&& 0xf = 0x0
  · rw [if_pos hc35] at h
    obtain rfl := stepEnded_or_elim h
    exact ⟨rfl, Or.inl rfl⟩
  rw [if_neg hc35] at h
  exact (stepFault_or_elim h).elim

/-- The rotated mask `0x80.rotate_right(pos)` isolates bit `7 - pos`. -/

theorem rotr8_top_mask (pos : Nat) (hp : pos ≤ 7) : rotr8 0x80 pos = 2 ^ (7 - pos) := by
  interval_cases pos <;> decide

/-- The masked-and-rotated sprite byte yields exactly the sprite bit at
position `pos` (MSB first) as 0 or 1. -/
theorem new_pixel_eq (sprite pos : Nat) (hp : pos ≤ 7) :
    rotl8 (sprite &&& rotr8 0x80 pos) (pos + 1) =
      if Nat.testBit sprite (7 - pos) then 1 else 0 := by
  rw [rotr8_top_mask pos hp, Nat.and_two_pow]
  rcases hb : Nat.testBit sprite (7 - pos)
  · simp [rotl8]
  · simp only [Bool.toNat_true, one_mul, if_pos trivial]
    interval_cases pos <;> decide

/-- Pointwise effect of one sprite row: bits land at consecutive columns
from the wrapped start column, and columns past the right edge are
clipped (the `continue` freezes `display_x`). -/

theorem drawBitsAux_pixel (sprite dy : Nat) :
    ∀ rem pos dx gm fl, pos + rem = 8 → dx ≤ 64 →
      ∀ idx,
        (drawBitsAux sprite dy rem pos dx gm fl).1 idx =
          if dy * 64 + dx ≤ idx ∧ idx < dy * 64 + min (dx + rem) 64 then
            gm idx ^^^
              (if Nat.testBit sprite (7 - (pos + (idx - (dy * 64 + dx)))) then 1 else 0)
          else gm idx := by
  intro rem
  induction rem with
  | zero =>
    intro pos dx gm fl hpr hdx idx
    rw [if_neg (by omega)]
    rfl
  | succ rem ih =>
    intro pos dx gm fl hpr hdx idx
    by_cases hdx63 : dx > DISPLAY_MAX_X
    · rw [show DISPLAY_MAX_X = 63 from rfl] at hdx63
      have hdx64 : dx = 64 := by omega
      simp only [drawBitsAux, if_pos (show dx > DISPLAY_MAX_X by rw [show DISPLAY_MAX_X = 63 from rfl]; omega)]
      rw [ih (pos + 1) dx gm fl (by omega) hdx idx]
      subst hdx64
      by_cases hc : dy * 64 + 64 ≤ idx ∧ idx < dy * 64 + min (64 + rem) 64
      · omega
      · rw [if_neg hc, if_neg (by omega)]
    · rw [show DISPLAY_MAX_X = 63 from rfl] at hdx63
      have hdx63' : dx ≤ 63 := by omega
      have hpos : pos ≤ 7 := by omega
      simp only [drawBitsAux,
        if_neg (show ¬ dx > DISPLAY_MAX_X by rw [show DISPLAY_MAX_X = 63 from rfl]; omega),
        GraphicMemory.setPixel, show DISPLAY_WIDTH = 64 from rfl]
      rw [ih (pos + 1) (dx + 1) _ _ (by omega) (by omega) idx]
      by_cases hidx : idx = dy * 64 + dx
      · subst hidx
        rw [if_neg (by omega), if_pos (by omega), new_pixel_eq sprite pos hpos]
        simp [GraphicMemory.setPixel]
      · simp only [GraphicMemory.setPixel, if_neg hidx]
        by_cases hc : dy * 64 + dx ≤ idx ∧ idx < dy * 64 + min (dx + (rem + 1)) 64
        · rw [if_pos (by omega), if_pos hc]
          have harg : pos + 1 + (idx - (dy * 64 + (dx + 1))) =
              pos + (idx - (dy * 64 + dx)) := by omega
          rw [harg]
        · rw [if_neg (by omega), if_neg hc]

/-- Pointwise effect of the row loop: rows land at consecutive display rows
from the wrapped start row, rows past the bottom edge are clipped, and all
sprite-byte reads must be in bounds. -/

theorem drawRowsAux_pixel (sx I : Nat) (mem : Memory) :
    ∀ rem row dy gm fl, dy ≤ 32 →
      (∀ r, r < rem → (I + (row + r)) % 65536 < MEMORY_SIZE) →
      ∃ p, drawRowsAux sx I mem rem row dy gm fl = some p ∧
        ∀ ry cx, ry < 32 → cx < 64 →
          p.1 (ry * 64 + cx) =
            if dy ≤ ry ∧ ry < dy + rem ∧ sx % 64 ≤ cx ∧ cx < sx % 64 + 8 then
              gm (ry * 64 + cx) ^^^
                (if Nat.testBit (mem ((I + (row + (ry - dy))) % 65536))
                    (7 - (cx - sx % 64)) then 1 else 0)
            else gm (ry * 64 + cx) := by
  intro rem
  induction rem with
  | zero =>
    intro row dy gm fl hdy hreads
    exact ⟨(gm, fl), rfl, fun ry cx hry hcx => by rw [if_neg (by omega)]⟩
  | succ rem ih =>
    intro row dy gm fl hdy hreads
    have hrd : (I + row) % 65536 < MEMORY_SIZE := by
      have := hreads 0 (by omega)
      simpa using this
    by_cases hdy31 : dy > DISPLAY_MAX_Y
    · rw [show DISPLAY_MAX_Y = 31 from rfl] at hdy31
      obtain ⟨p, hp, hchar⟩ := ih (row + 1) dy gm fl hdy (fun r hr => by
        have h := hreads (r + 1) (by omega)
        rw [show I + (row + 1 + r) = I + (row + (r + 1)) by omega]
        exact h)
      refine ⟨p, ?_, ?_⟩
      · simp only [drawRowsAux, Memory.read, if_pos hrd,
          if_pos (show dy > DISPLAY_MAX_Y by rw [show DISPLAY_MAX_Y = 31 from rfl]; omega)]
        exact hp
      · intro ry cx hry hcx
        rw [hchar ry cx hry hcx, if_neg (by omega), if_neg (by omega)]
    · rw [show DISPLAY_MAX_Y = 31 from rfl] at hdy31
      have hwx : sx % 64 ≤ 63 := by omega
      have hdx0 : (if sx > DISPLAY_MAX_X then sx % DISPLAY_WIDTH else sx) = sx % 64 := by
        rw [show DISPLAY_MAX_X = 63 from rfl, show DISPLAY_WIDTH = 64 from rfl]
        split
        · rfl
        · exact (Nat.mod_eq_of_lt (by omega)).symm
      obtain ⟨p, hp, hchar⟩ := ih (row + 1) (dy + 1)
        (drawBitsAux (mem ((I + row) % 65536)) dy 8 0 (sx % 64) gm fl).1
        (drawBitsAux (mem ((I + row) % 65536)) dy 8 0 (sx % 64) gm fl).2
        (by omega) (fun r hr => by
          have h := hreads (r + 1) (by omega)
          rw [show I + (row + 1 + r) = I + (row + (r + 1)) by omega]
          exact h)
      have hbits := drawBitsAux_pixel (mem ((I + row) % 65536)) dy 8 0
        (sx % 64) gm fl rfl (by omega)
      refine ⟨p, ?_, ?_⟩
      · simp only [drawRowsAux, Memory.read, if_pos hrd,
          if_neg (show ¬ dy > DISPLAY_MAX_Y by rw [show DISPLAY_MAX_Y = 31 from rfl]; omega),
          hdx0]
        exact hp
      · intro ry cx hry hcx
        rw [hchar ry cx hry hcx]
        by_cases hrow : ry = dy
        · rw [if_neg (by omega)]
          rw [hbits (ry * 64 + cx), hrow]
          by_cases hcol : sx % 64 ≤ cx ∧ cx < sx % 64 + 8
          · have hA : dy * 64 + sx % 64 ≤ dy * 64 + cx ∧
                dy * 64 + cx < dy * 64 + min (sx % 64 + 8) 64 := by omega
            have hB : dy ≤ dy ∧ dy < dy + (rem + 1) ∧ sx % 64 ≤ cx ∧ cx < sx % 64 + 8 :=
              ⟨Nat.le_refl _, by omega, hcol.1, hcol.2⟩
            rw [if_pos hA, if_pos hB]
            have h1 : 0 + (dy * 64 + cx - (dy * 64 + sx % 64)) = cx - sx % 64 := by omega
            have h2 : row + (dy - dy) = row := by omega
            rw [h1, h2]
          · have hA : ¬ (dy * 64 + sx % 64 ≤ dy * 64 + cx ∧
                dy * 64 + cx < dy * 64 + min (sx % 64 + 8) 64) := by omega
            have hB : ¬ (dy ≤ dy ∧ dy < dy + (rem + 1) ∧ sx % 64 ≤ cx ∧
                cx < sx % 64 + 8) := by
              intro hB
              exact hcol ⟨hB.2.2.1, hB.2.2.2⟩
            rw [if_neg hA, if_neg hB]
        · have hq : (drawBitsAux (mem ((I + row) % 65536)) dy 8 0
              (sx % 64) gm fl).1 (ry * 64 + cx) = gm (ry * 64 + cx) := by
            rw [hbits (ry * 64 + cx)]
            exact if_neg (by omega)
          by_cases hcond : dy + 1 ≤ ry ∧ ry < dy + 1 + rem ∧ sx % 64 ≤ cx ∧ cx < sx % 64 + 8
          · have hB : dy ≤ ry ∧ ry < dy + (rem + 1) ∧ sx % 64 ≤ cx ∧ cx < sx % 64 + 8 :=
              ⟨by omega, by omega, hcond.2.2.1, hcond.2.2.2⟩
            rw [if_pos hcond, if_pos hB, hq]
            have h3 : row + 1 + (ry - (dy + 1)) = row + (ry - dy) := by omega
            rw [h3]
          · have hB : ¬ (dy ≤ ry ∧ ry < dy + (rem + 1) ∧ sx % 64 ≤ cx ∧
                cx < sx % 64 + 8) := by
              intro hB
              exact hcond ⟨by omega, by omega, hB.2.2.1, hB.2.2.2⟩
            rw [if_neg hcond, if_neg hB, hq]

/-! ## The claims -/

/-- C1 counterexample: drawing a two-row all-ones sprite at `(x, y) = (0, 31)`
leaves pixel (row 0, column 0) at 0, although sprite row 1 has its MSB set
and the claim's wraparound target row `(31 + 1) % 32 = 0` would have
received `0 ^^^ 1 = 1`. -/
theorem draw_sprite_no_vertical_wrap_counterexample :
    Nat.testBit (memFF ((0 + 1) % 65536)) 7 = true
    ∧ (Chip8Gpu.draw_sprite gmZero 0 31 2 0 memFF).map
        (fun p => p.1 ((31 + 1) % 32 * 64 + (0 + 0) % 64)) = some 0
    ∧ gmZero ((31 + 1) % 32 * 64 + (0 + 0) % 64) ^^^ 1 = 1 := by
  decide

/-- C1 (amended): for every draw with in-bounds sprite reads, sprite byte `r`
is read from `memory[(I + r) % 2^16]` and its bits land MSB-first at
consecutive columns — but only the start coordinates wrap (first target row
`start_y % 32`, first target column `start_x % 64`); rows and columns that
extend past the bottom or right display edge are clipped (left unchanged),
not wrapped around. -/

theorem draw_sprite_wraps_start_and_clips (gm : GraphicMemory)
    (start_x start_y rows address_register : Nat) (mem : Memory)
    (hreads : ∀ r, r < rows → (address_register + r) % 65536 < MEMORY_SIZE) :
    ∃ p, Chip8Gpu.draw_sprite gm start_x start_y rows address_register mem = some p ∧
      ∀ ry cx, ry < 32 → cx < 64 →
        p.1 (ry * 64 + cx) =
          if start_y % 32 ≤ ry ∧ ry < start_y % 32 + rows
              ∧ start_x % 64 ≤ cx ∧ cx < start_x % 64 + 8 then
            gm (ry * 64 + cx) ^^^
              (if Nat.testBit (mem ((address_register + (ry - start_y % 32)) % 65536))
                  (7 - (cx - start_x % 64)) then 1 else 0)
          else gm (ry * 64 + cx) := by
  have hwy : (if start_y > DISPLAY_MAX_Y then start_y % DISPLAY_HEIGHT else start_y) =
      start_y % 32 := by
    rw [show DISPLAY_MAX_Y = 31 from rfl, show DISPLAY_HEIGHT = 32 from rfl]
    split
    · rfl
    · exact (Nat.mod_eq_of_lt (by omega)).symm
  obtain ⟨p, hp, hchar⟩ := drawRowsAux_pixel start_x address_register mem rows 0
    (start_y % 32) gm false (by omega) (fun r hr => by simpa using hreads r hr)
  refine ⟨p, ?_, ?_⟩
  · simp only [Chip8Gpu.draw_sprite, hwy]
    exact hp
  · intro ry cx hry hcx
    rw [hchar ry cx hry hcx]
    have h0 : address_register + (0 + (ry - start_y % 32)) =
        address_register + (ry - start_y % 32) := by omega
    rw [h0]

/-- C1 witness at the concrete draw of a two-row sprite at (0, 31). -/
theorem draw_sprite_wraps_start_and_clips_witness :
    ∃ p, Chip8Gpu.draw_sprite gmZero 0 31 2 0 memFF = some p ∧
      ∀ ry cx, ry < 32 → cx < 64 →
        p.1 (ry * 64 + cx) =
          if 31 % 32 ≤ ry ∧ ry < 31 % 32 + 2 ∧ 0 % 64 ≤ cx ∧ cx < 0 % 64 + 8 then
            gmZero (ry * 64 + cx) ^^^
              (if Nat.testBit (memFF ((0 + (ry - 31 % 32)) % 65536))
                  (7 - (cx - 0 % 64)) then 1 else 0)
          else gmZero (ry * 64 + cx) :=
  draw_sprite_wraps_start_and_clips gmZero 0 31 2 0 memFF (by decide)

/-- C2 counterexample: CALL 0x300 at 0x200 followed immediately by RET leaves
the program counter at 0x202, not at the 0x200 it held before the CALL, so
the claim's equality fails. -/
theorem call_ret_pc_counterexample :
    ((tick none (.key 0) 0 sCall).state?.bind
        fun t => (tick none (.key 0) 0 t).state?).map (fun t => t.program_counter) =
      some 0x202
    ∧ sCall.program_counter = 0x200 ∧ (0x202 : Nat) ≠ 0x200 := by
  decide

/-- C2 (amended): the CALL tick pushes the call-site address itself (the
program counter before the CALL tick executed), and after a matching RET tick
with the stack unchanged in between, the program counter equals the call-site
address plus `INSTRUCTION_SIZE`, because the RET arm falls through to the
end-of-tick advance. -/
theorem call_ret_returns_to_call_site_plus_two
    (p1 : Option Key) (k1 : Key) (r1 : Nat) (p2 : Option Key) (k2 : Key) (r2 : Nat)
    (s1 s2 s3 s4 : Chip8State)
    (hpc1 : s1.program_counter + 1 < MEMORY_SIZE)
    (hcall : (fetchWord s1 &&& 0xf000) >>> 12 = 0x2)
    (hsp : s1.stack.stack_pointer < STACK_SIZE)
    (ht1 : tick p1 k1 r1 s1 = .ok s2)
    (hstack : s3.stack = s2.stack)
    (hpc3 : s3.program_counter + 1 < MEMORY_SIZE)
    (hret : fetchWord s3 = 0x00ee)
    (ht2 : tick p2 k2 r2 s3 = .ok s4) :
    s4.program_counter = s1.program_counter + INSTRUCTION_SIZE
    ∧ s2.stack.memory s1.stack.stack_pointer = s1.program_counter := by
  have hsp15 : s1.stack.stack_pointer < 15 := hsp
  rw [tick_eq_dispatch p1 k1 r1 s1 hpc1, executeOp_call p1 k1 r1 _ _ hcall] at ht1
  rw [show call_subroutine (timersDecremented s1).program_counter
        (fetchWord s1 &&& 0xfff) (timersDecremented s1).stack =
      some (fetchWord s1 &&& 0xfff,
        { memory := fun i => if i = s1.stack.stack_pointer then s1.program_counter
            else s1.stack.memory i,
          stack_pointer := s1.stack.stack_pointer + 1 }) by
    simp [call_subroutine, Stack.push, timersDecremented, STACK_SIZE, hsp15]] at ht1
  simp only [TickResult.ok.injEq] at ht1
  have hs2stack : s2.stack =
      { memory := fun i => if i = s1.stack.stack_pointer then s1.program_counter
          else s1.stack.memory i,
        stack_pointer := s1.stack.stack_pointer + 1 } := by
    rw [← ht1]
    rfl
  rw [tick_eq_dispatch p2 k2 r2 s3 hpc3, hret, executeOp_ret p2 k2 r2] at ht2
  have h3 : s3.stack =
      { memory := fun i => if i = s1.stack.stack_pointer then s1.program_counter
          else s1.stack.memory i,
        stack_pointer := s1.stack.stack_pointer + 1 } := by rw [hstack, hs2stack]
  rw [show return_from_subroutine (timersDecremented s3).stack =
      some (s1.program_counter, { s3.stack with stack_pointer := s1.stack.stack_pointer }) by
    show Stack.pop s3.stack = _
    rw [h3]
    simp [Stack.pop, STACK_SIZE, hsp15]] at ht2
  simp only [TickResult.ok.injEq] at ht2
  constructor
  · rw [← ht2]
    have h1 : s1.program_counter + 1 < 4096 := hpc1
    show (s1.program_counter + INSTRUCTION_SIZE) % 65536 = s1.program_counter + INSTRUCTION_SIZE
    have h2 : s1.program_counter + INSTRUCTION_SIZE < 65536 := by
      simp only [INSTRUCTION_SIZE]; omega
    exact Nat.mod_eq_of_lt h2
  · rw [hs2stack]
    simp

/-- C2 witness: the concrete CALL/RET pair returning to 0x202. -/
theorem call_ret_returns_to_call_site_plus_two_witness :
    sAfterRet.program_counter = sCall.program_counter + INSTRUCTION_SIZE
    ∧ sAfterCall.stack.memory sCall.stack.stack_pointer = sCall.program_counter :=
  call_ret_returns_to_call_site_plus_two none (.key 0) 0 none (.key 0) 0
    sCall sAfterCall sAfterCall sAfterRet (by decide) (by decide) (by decide) rfl rfl
    (by decide) (by decide) rfl

/-- C3 counterexample: with `x = y = 0xF` and `V[0xF] = 3`, opcode 8xy4
leaves `V[x]` equal to the carry flag 0, not `(3 + 3) % 256`. -/
theorem add_vx_vy_x_is_flag_counterexample :
    Registers.get_register_at (math_vx_equal_vx_plus_vy rC3 0xf 0xf) 0xf
      ≠ (Registers.get_register_at rC3 0xf + Registers.get_register_at rC3 0xf) % 256 := by
  decide

/-- C3 (amended): for all register indices and byte values, 8xy4 sets VF to 1
exactly when `V[x] + V[y] > 255`; and whenever `x ≠ 0xF`, it leaves
`V[x] = (V[x] + V[y]) % 256` — for `x = 0xF` the carry flag, written last,
overwrites the stored sum. -/
theorem add_vx_vy_carry_and_sum (r : Registers) (x y : Nat)
    (_hx : x < 16) (_hy : y < 16)
    (_ha : Registers.get_register_at r x < 256)
    (_hb : Registers.get_register_at r y < 256) :
    Registers.get_register_at (math_vx_equal_vx_plus_vy r x y) 0xf
      = (if Registers.get_register_at r x + Registers.get_register_at r y > 255 then 1 else 0)
    ∧ (x ≠ 0xf →
      Registers.get_register_at (math_vx_equal_vx_plus_vy r x y) x
        = (Registers.get_register_at r x + Registers.get_register_at r y) % 256) := by
  unfold math_vx_equal_vx_plus_vy
  constructor
  · by_cases h : Registers.get_register_at r x + Registers.get_register_at r y > 0xff
    · simp [h, Registers.get_set_self]
    · simp [h, Registers.get_set_self]
  · intro hne
    by_cases h : Registers.get_register_at r x + Registers.get_register_at r y > 0xff
    · simp [h, Registers.get_set_ne _ _ hne, Registers.get_set_self]
    · simp [h, Registers.get_set_ne _ _ hne, Registers.get_set_self]

/-- C3 witness at `x = 1`, `y = 2` on a concrete register file. -/
theorem add_vx_vy_carry_and_sum_witness :
    Registers.get_register_at (math_vx_equal_vx_plus_vy rC3 1 2) 0xf = 0
    ∧ Registers.get_register_at (math_vx_equal_vx_plus_vy rC3 1 2) 1 = 0 := by
  have h := add_vx_vy_carry_and_sum rC3 1 2 (by decide) (by decide) (by decide) (by decide)
  refine ⟨?_, ?_⟩
  · rw [h.1]; decide
  · rw [h.2 (by decide)]; decide

/-- C4: when the fetched word at the program counter is the all-zero word
0x0000, `tick` returns the halted result and the post-tick state is exactly
the input state with only the per-tick timer decrement applied — the early
return skips even the program counter advance. -/
theorem tick_zero_word_halts_preserving_state (pressed : Option Key) (waitKey : Key)
    (rand : Nat) (s : Chip8State)
    (hpc : s.program_counter + 1 < MEMORY_SIZE) (hw : fetchWord s = 0) :
    tick pressed waitKey rand s = .halted (timersDecremented s) := by
  have hm : s.memory s.program_counter = 0 ∧ s.memory (s.program_counter + 1) = 0 := by
    unfold fetchWord at hw
    rw [Nat.shiftLeft_eq] at hw
    constructor <;> omega
  unfold tick
  have h1 : (timersDecremented s).program_counter < MEMORY_SIZE := by
    simp only [timersDecremented]; omega
  simp only [timersDecremented] at *
  simp [h1, Memory.read, Nat.lt_of_succ_lt hpc, hpc, hm.1, hm.2, executeOp_zero]

/-- C4 witness on the zeroed machine. -/
theorem tick_zero_word_halts_preserving_state_witness :
    baseState.program_counter + 1 < MEMORY_SIZE ∧ fetchWord baseState = 0 ∧
    tick none (.key 0) 0 baseState = .halted (timersDecremented baseState) :=
  ⟨by decide, by decide,
    tick_zero_word_halts_preserving_state none (.key 0) 0 baseState (by decide) (by decide)⟩

/-- C5: evaluation at the failing input — an Fx18 (LD ST,Vx) tick with
`V[5] = 7` and sound timer 0 leaves the sound timer at 0 instead of setting
it to 7: `sound_sound_timer_equal_vx` is an unimplemented `TODO` no-op that
is not even passed the sound timer. -/
theorem sound_timer_set_is_noop_at_failing_input :
    Registers.get_register_at sFx18.registers 5 = 7
    ∧ sFx18.sound_timer = 0
    ∧ (tick none (.key 0) 0 sFx18).state?.map (fun t => t.sound_timer) = some 0
    ∧ (tick none (.key 0) 0 sFx18).state?.map (fun t => t.program_counter) = some 0x202 := by
  decide

/-- C6: executing Fx29 panics exactly when `V[x] > 0xF`; when `V[x] ≤ 0xF`
the tick succeeds and sets the address register to `5 * V[x]`. -/
theorem font_index_error_iff_above_fifteen (pressed : Option Key) (waitKey : Key)
    (rand : Nat) (s : Chip8State) (x : Nat)
    (hpc : s.program_counter + 1 < MEMORY_SIZE)
    (hw : partsOf (fetchWord s) = (0xf, x, 0x2, 0x9)) :
    (0xf < Registers.get_register_at s.registers x →
      tick pressed waitKey rand s = .panic)
    ∧ (Registers.get_register_at s.registers x ≤ 0xf →
      tick pressed waitKey rand s = .ok { timersDecremented s with
        address_register := 5 * Registers.get_register_at s.registers x
        program_counter := (s.program_counter + INSTRUCTION_SIZE) % 65536 }) := by
  obtain ⟨hc, hx, hy, hn⟩ : (fetchWord s &&& 0xf000) >>> 12 = 0xf
      ∧ (fetchWord s &&& 0xf00) >>> 8 = x
      ∧ (fetchWord s &&& 0xf0) >>> 4 = 0x2
      ∧ fetchWord s &&& 0xf = 0x9 := by
    simpa [partsOf, OpCode.get_parts, OpCode.from_data, Prod.ext_iff] using hw
  rw [tick_eq_dispatch pressed waitKey rand s hpc,
    executeOp_fx29 pressed waitKey rand _ _ x hc hx hy hn]
  unfold mem_i_equal_sprite_addr_vx
  constructor
  · intro h
    simp [Registers.get_register_at] at h ⊢
    simp [h, timersDecremented]
  · intro h
    simp [Registers.get_register_at] at h ⊢
    simp [Nat.not_lt_of_le h, timersDecremented, Registers.get_register_at,
      Chip8State.withI]

/-- C6 witness: the particular state with `V[1] = 0x10` makes the Fx29 tick
panic. -/
theorem font_index_error_iff_above_fifteen_witness :
    0xf < Registers.get_register_at sFx29.registers 1
    ∧ tick none (.key 0) 0 sFx29 = .panic :=
  ⟨by decide,
    (font_index_error_iff_above_fifteen none (.key 0) 0 sFx29 1 (by decide) (by decide)).1
      (by decide)⟩

/-- C7: when Ex9E or ExA1 sees the escape key from the keypad, or Fx0A's
blocking wait returns it, the tick completes with the program counter at the
sentinel 65535 near the top of the 16-bit address space (the handler stores
`u16::MAX - 2` and the end-of-tick advance adds 2), and the immediately
following tick returns the halted result because the fetch finds the program
counter beyond memory. -/

theorem escape_sets_sentinel_then_halts (pressed : Option Key) (waitKey : Key)
    (rand : Nat) (s : Chip8State) (x : Nat)
    (hpc : s.program_counter + 1 < MEMORY_SIZE)
    (hesc : (partsOf (fetchWord s) = (0xe, x, 0x9, 0xe) ∧ pressed = some .keyESC)
        ∨ (partsOf (fetchWord s) = (0xe, x, 0xa, 0x1) ∧ pressed = some .keyESC)
        ∨ (partsOf (fetchWord s) = (0xf, x, 0x0, 0xa) ∧ waitKey = .keyESC)) :
    tick pressed waitKey rand s =
      .ok { timersDecremented s with program_counter := 65535 }
    ∧ ∀ (p2 : Option Key) (k2 : Key) (r2 : Nat), ∃ s'',
        tick p2 k2 r2 { timersDecremented s with program_counter := 65535 } =
          .halted s'' := by
  constructor
  · rw [tick_eq_dispatch pressed waitKey rand s hpc]
    rcases hesc with ⟨hw, hp⟩ | ⟨hw, hp⟩ | ⟨hw, hk⟩
    · obtain ⟨hc, -, hy, hn⟩ : (fetchWord s &&& 0xf000) >>> 12 = 0xe
          ∧ (fetchWord s &&& 0xf00) >>> 8 = x
          ∧ (fetchWord s &&& 0xf0) >>> 4 = 0x9
          ∧ fetchWord s &&& 0xf = 0xe := by
        simpa [partsOf, OpCode.get_parts, OpCode.from_data, Prod.ext_iff] using hw
      rw [hp, executeOp_ex9e_esc waitKey rand _ _ hc hy hn]
      simp [INSTRUCTION_SIZE, Chip8State.withPc]
    · obtain ⟨hc, -, hy, hn⟩ : (fetchWord s &&& 0xf000) >>> 12 = 0xe
          ∧ (fetchWord s &&& 0xf00) >>> 8 = x
          ∧ (fetchWord s &&& 0xf0) >>> 4 = 0xa
          ∧ fetchWord s &&& 0xf = 0x1 := by
        simpa [partsOf, OpCode.get_parts, OpCode.from_data, Prod.ext_iff] using hw
      rw [hp, executeOp_exa1_esc waitKey rand _ _ hc hy hn]
      simp [INSTRUCTION_SIZE, Chip8State.withPc]
    · obtain ⟨hc, -, hy, hn⟩ : (fetchWord s &&& 0xf000) >>> 12 = 0xf
          ∧ (fetchWord s &&& 0xf00) >>> 8 = x
          ∧ (fetchWord s &&& 0xf0) >>> 4 = 0x0
          ∧ fetchWord s &&& 0xf = 0xa := by
        simpa [partsOf, OpCode.get_parts, OpCode.from_data, Prod.ext_iff] using hw
      rw [hk, executeOp_fx0a_esc pressed rand _ _ hc hy hn]
      simp [INSTRUCTION_SIZE, Chip8State.withRegistersPc]
  · intro p2 k2 r2
    exact ⟨_, tick_halted_of_pc_oob p2 k2 r2 _ (by simp [timersDecremented, MEMORY_SIZE])⟩

/-- C7 witness on a concrete Ex9E state with the escape key pressed. -/
theorem escape_sets_sentinel_then_halts_witness :
    tick (some .keyESC) (.key 0) 0 sEsc =
      .ok { timersDecremented sEsc with program_counter := 65535 }
    ∧ ∀ (p2 : Option Key) (k2 : Key) (r2 : Nat), ∃ s'',
        tick p2 k2 r2 { timersDecremented sEsc with program_counter := 65535 } =
          .halted s'' :=
  escape_sets_sentinel_then_halts (some .keyESC) (.key 0) 0 sEsc 1 (by decide)
    (Or.inl ⟨by decide, rfl⟩)

/-- C8: on every tick that yields a state (continue or halted), each timer is
decremented by 1 when positive and left at 0 when 0: the post-tick sound
timer is always exactly the decremented value regardless of the executed
instruction, the post-tick delay timer is the decremented value for every
instruction except Fx15 (LD DT,Vx — which the spec separately defines to
overwrite it), and both timers remain bytes in [0, 255] whenever registers
and timers were bytes before the tick. -/

theorem timers_decrement_per_tick_and_stay_bytes (pressed : Option Key) (waitKey : Key)
    (rand : Nat) (s s' : Chip8State)
    (hreg : ∀ i, Registers.get_register_at s.registers i < 256)
    (hd : s.delay_timer ≤ 255) (hsnd : s.sound_timer ≤ 255)
    (ht : (tick pressed waitKey rand s).state? = some s') :
    s'.sound_timer = (if 0 < s.sound_timer then s.sound_timer - 1 else s.sound_timer)
    ∧ ((∀ x, partsOf (fetchWord s) ≠ (0xf, x, 0x1, 0x5)) →
      s'.delay_timer = (if 0 < s.delay_timer then s.delay_timer - 1 else s.delay_timer))
    ∧ s'.delay_timer ≤ 255 ∧ s'.sound_timer ≤ 255 := by
  by_cases hA : s.program_counter + 1 < MEMORY_SIZE
  · rw [tick_eq_dispatch pressed waitKey rand s hA] at ht
    rcases hex : executeOp pressed waitKey rand (timersDecremented s) (fetchWord s)
      with u | u | u | -
    · rw [hex] at ht
      simp only [TickResult.state?, Option.some.injEq] at ht
      subst ht
      have heff := executeOp_timer_effects pressed waitKey rand (timersDecremented s)
        (fetchWord s) u (Or.inl hex)
      refine ⟨?_, ?_, ?_, ?_⟩
      · simpa [timersDecremented] using heff.1
      · intro hne
        rcases heff.2 with hdel | ⟨hc, hy, hn, -⟩
        · simpa [timersDecremented] using hdel
        · exact absurd (by simp [partsOf, OpCode.get_parts, OpCode.from_data, hc, hy, hn])
            (hne ((fetchWord s &&& 0xf00) >>> 8))
      · rcases heff.2 with hdel | ⟨-, -, -, hval⟩
        · show u.delay_timer ≤ 255
          rw [hdel]
          simp only [timersDecremented]
          split <;> omega
        · show u.delay_timer ≤ 255
          rw [hval]
          exact Nat.lt_succ_iff.mp (hreg ((fetchWord s &&& 0xf00) >>> 8))
      · show u.sound_timer ≤ 255
        rw [heff.1]
        simp only [timersDecremented]
        split <;> omega
    · rw [hex] at ht
      simp only [TickResult.state?, Option.some.injEq] at ht
      subst ht
      have heff := executeOp_timer_effects pressed waitKey rand (timersDecremented s)
        (fetchWord s) u (Or.inr (Or.inl hex))
      refine ⟨?_, ?_, ?_, ?_⟩
      · simpa [timersDecremented] using heff.1
      · intro hne
        rcases heff.2 with hdel | ⟨hc, hy, hn, -⟩
        · simpa [timersDecremented] using hdel
        · exact absurd (by simp [partsOf, OpCode.get_parts, OpCode.from_data, hc, hy, hn])
            (hne ((fetchWord s &&& 0xf00) >>> 8))
      · rcases heff.2 with hdel | ⟨-, -, -, hval⟩
        · rw [hdel]
          simp only [timersDecremented]
          split <;> omega
        · rw [hval]
          exact Nat.lt_succ_iff.mp (hreg ((fetchWord s &&& 0xf00) >>> 8))
      · rw [heff.1]
        simp only [timersDecremented]
        split <;> omega
    · rw [hex] at ht
      simp only [TickResult.state?, Option.some.injEq] at ht
      subst ht
      have heff := executeOp_timer_effects pressed waitKey rand (timersDecremented s)
        (fetchWord s) u (Or.inr (Or.inr hex))
      refine ⟨?_, ?_, ?_, ?_⟩
      · simpa [timersDecremented] using heff.1
      · intro hne
        rcases heff.2 with hdel | ⟨hc, hy, hn, -⟩
        · simpa [timersDecremented] using hdel
        · exact absurd (by simp [partsOf, OpCode.get_parts, OpCode.from_data, hc, hy, hn])
            (hne ((fetchWord s &&& 0xf00) >>> 8))
      · rcases heff.2 with hdel | ⟨-, -, -, hval⟩
        · rw [hdel]
          simp only [timersDecremented]
          split <;> omega
        · rw [hval]
          exact Nat.lt_succ_iff.mp (hreg ((fetchWord s &&& 0xf00) >>> 8))
      · rw [heff.1]
        simp only [timersDecremented]
        split <;> omega
    · rw [hex] at ht
      simp [TickResult.state?] at ht
  · by_cases hB : s.program_counter < MEMORY_SIZE
    · rw [tick_panic_at_last_byte pressed waitKey rand s hB hA] at ht
      simp [TickResult.state?] at ht
    · rw [tick_halted_of_pc_oob pressed waitKey rand s (Nat.le_of_not_lt hB)] at ht
      simp only [TickResult.state?, Option.some.injEq] at ht
      subst ht
      refine ⟨by simp [timersDecremented], fun _ => by simp [timersDecremented], ?_, ?_⟩
      · simp only [timersDecremented]
        split <;> omega
      · simp only [timersDecremented]
        split <;> omega

/-- C8 witness: a LD V0,5 tick with timers 5 and 3. -/
theorem timers_decrement_per_tick_and_stay_bytes_witness :
    sC8'.sound_timer = (if 0 < sC8.sound_timer then sC8.sound_timer - 1 else sC8.sound_timer)
    ∧ ((∀ x, partsOf (fetchWord sC8) ≠ (0xf, x, 0x1, 0x5)) →
      sC8'.delay_timer = (if 0 < sC8.delay_timer then sC8.delay_timer - 1 else sC8.delay_timer))
    ∧ sC8'.delay_timer ≤ 255 ∧ sC8'.sound_timer ≤ 255 :=
  timers_decrement_per_tick_and_stay_bytes none (.key 0) 0 sC8 sC8'
    (fun _ => by show (0 : Nat) < 256; decide) (by decide) (by decide) rfl


/-- C9: a tick entered with the program counter at or beyond the 4096-byte
memory halts without fetching or executing an instruction, but still
decrements the timers and additionally advances the program counter by
`INSTRUCTION_SIZE` (16-bit wrapping), so the halting tick does not preserve
the program counter. -/
theorem tick_pc_out_of_memory_halts_but_advances (pressed : Option Key) (waitKey : Key)
    (rand : Nat) (s : Chip8State) (h : MEMORY_SIZE ≤ s.program_counter) :
    tick pressed waitKey rand s =
      .halted { timersDecremented s with
        program_counter := (s.program_counter + INSTRUCTION_SIZE) % 65536 } :=
  tick_halted_of_pc_oob pressed waitKey rand s h

/-- C9 witness at program counter 5000. -/
theorem tick_pc_out_of_memory_halts_but_advances_witness :
    MEMORY_SIZE ≤ sOob.program_counter
    ∧ tick none (.key 0) 0 sOob =
      .halted { timersDecremented sOob with program_counter := 5002 } :=
  ⟨by decide, tick_pc_out_of_memory_halts_but_advances none (.key 0) 0 sOob (by decide)⟩

/-- C10: a completed Fx55 (register dump) or Fx65 (register load) tick leaves
the address register unchanged — the walk over memory uses a separate
counter. -/
theorem reg_dump_load_preserve_address_register (pressed : Option Key) (waitKey : Key)
    (rand : Nat) (s s' : Chip8State) (x : Nat)
    (hpc : s.program_counter + 1 < MEMORY_SIZE)
    (hw : partsOf (fetchWord s) = (0xf, x, 0x5, 0x5)
        ∨ partsOf (fetchWord s) = (0xf, x, 0x6, 0x5))
    (ht : tick pressed waitKey rand s = .ok s') :
    s'.address_register = s.address_register := by
  rw [tick_eq_dispatch pressed waitKey rand s hpc] at ht
  rcases hw with hw | hw
  · obtain ⟨hc, hx, hy, hn⟩ : (fetchWord s &&& 0xf000) >>> 12 = 0xf
        ∧ (fetchWord s &&& 0xf00) >>> 8 = x
        ∧ (fetchWord s &&& 0xf0) >>> 4 = 0x5
        ∧ fetchWord s &&& 0xf = 0x5 := by
      simpa [partsOf, OpCode.get_parts, OpCode.from_data, Prod.ext_iff] using hw
    rw [executeOp_fx55 pressed waitKey rand _ _ x hc hx hy hn] at ht
    rcases hdump : mem_reg_dump (timersDecremented s).registers (timersDecremented s).memory
        (timersDecremented s).address_register x with _ | m'
    · rw [hdump] at ht; simp at ht
    · rw [hdump] at ht
      simp only [TickResult.ok.injEq] at ht
      rw [← ht]
      rfl
  · obtain ⟨hc, hx, hy, hn⟩ : (fetchWord s &&& 0xf000) >>> 12 = 0xf
        ∧ (fetchWord s &&& 0xf00) >>> 8 = x
        ∧ (fetchWord s &&& 0xf0) >>> 4 = 0x6
        ∧ fetchWord s &&& 0xf = 0x5 := by
      simpa [partsOf, OpCode.get_parts, OpCode.from_data, Prod.ext_iff] using hw
    rw [executeOp_fx65 pressed waitKey rand _ _ x hc hx hy hn] at ht
    rcases hload : mem_reg_load (timersDecremented s).registers (timersDecremented s).memory
        (timersDecremented s).address_register x with _ | r'
    · rw [hload] at ht; simp at ht
    · rw [hload] at ht
      simp only [TickResult.ok.injEq] at ht
      rw [← ht]
      rfl

/-- C10 witness: dumping V0..V2 at I = 0x300 leaves I = 0x300. -/
theorem reg_dump_load_preserve_address_register_witness :
    sAfterDump.address_register = 0x300 :=
  reg_dump_load_preserve_address_register none (.key 0) 0 sDump sAfterDump 2
    (by decide) (Or.inl (by decide)) rfl

end Chip8
